import Mathlib

/-!
Verification of the firesim simulation core against its source.

The development shallowly embeds the Rust modules `config.rs`, `ping_pong.rs`,
`compute_params.rs`, `compute_step.rs`, `texture.rs` and the orchestration in
`state.rs`.  GPU handles (texture views, samplers) are abstracted as natural
number identifiers; `f32` fields are modelled as rationals, which is exact for
every value the verified code paths manipulate (0.0, 1.0, and casts of small
integers, all exactly representable in binary32); the procedurally generated
velocity field is modelled over the reals.
-/

namespace FireSim

/-! ## config.rs -/

/-- Model of the constant `GRID_DIMENSION_LENGTH: u32 = 64` in `config.rs`. -/
def GRID_DIMENSION_LENGTH : ℕ := 64

/-- Model of the constant `GRID_VOXEL_SIDE_LENGTH: f32 = 0.025` in `config.rs`
(0.025 is used only through products that the claims never inspect bit-exactly). -/
def GRID_VOXEL_SIDE_LENGTH : ℚ := 0.025

/-! ## texture.rs (handles only)

A `Texture` owns a wgpu texture, a view and a sampler.  For the ping-pong and
binding claims only the identity of the view and of the sampler matters, so we
model them as abstract identifiers. -/

/-- Model of `Texture` from `texture.rs`: the view and sampler handles,
abstracted to identifiers. -/
structure Texture where
  view : ℕ
  sampler : ℕ
deriving DecidableEq

/-! ## ping_pong.rs -/

/-- Model of `PingPong` from `ping_pong.rs`: two textures and the
`a_to_b` direction flag. -/
structure PingPong where
  texture_a : Texture
  texture_b : Texture
  a_to_b : Bool
deriving DecidableEq

namespace PingPong

/-- Model of `PingPong::new`: stores the two textures with `a_to_b = true`. -/
def new (texture_a texture_b : Texture) : PingPong :=
  { texture_a := texture_a, texture_b := texture_b, a_to_b := true }

/-- Model of `PingPong::get_read_and_write`: the (read, write) views selected by
the `a_to_b` flag. -/
def get_read_and_write (p : PingPong) : ℕ × ℕ :=
  if p.a_to_b then (p.texture_a.view, p.texture_b.view)
  else (p.texture_b.view, p.texture_a.view)

/-- Model of `PingPong::get_read`: the view holding the most up-to-date data. -/
def get_read (p : PingPong) : ℕ :=
  if p.a_to_b then p.texture_a.view else p.texture_b.view

/-- Model of `PingPong::swap`: negates the `a_to_b` flag. -/
def swap (p : PingPong) : PingPong :=
  { p with a_to_b := !p.a_to_b }

/-- Model of `PingPong::get_sampler`: always texture A's sampler. -/
def get_sampler (p : PingPong) : ℕ :=
  p.texture_a.sampler

end PingPong

/-- Applies `swap` to a ping-pong buffer `n` times (a finite sequence of
`swap()` calls of length `n`). -/
def swapIter (n : ℕ) (p : PingPong) : PingPong :=
  PingPong.swap^[n] p

/-! ## compute_params.rs -/

/-- Model of the fields of `wgpu::SurfaceConfiguration` that the simulation
core reads (pixel width and height of the window surface). -/
structure SurfaceConfiguration where
  width : ℕ
  height : ℕ
deriving DecidableEq

/-- Model of `ComputeParams` from `compute_params.rs` (the Parameter Block).
The trailing `_pad0` field is constant zero padding and is omitted. -/
structure ComputeParams where
  dt : ℚ
  width : ℕ
  height : ℕ
  depth : ℕ
  inject_sources_strength : ℚ
  box_min : ℚ × ℚ × ℚ × ℚ
  box_max : ℚ × ℚ × ℚ × ℚ
  viewport : ℚ × ℚ
deriving DecidableEq

namespace ComputeParams

/-- Model of `ComputeParams::new`: dt starts as `Duration::new(0, 0).as_secs_f32() = 0.0`,
the grid extents are all `GRID_DIMENSION_LENGTH`, the injection strength is 0,
and the viewport is the surface configuration's size cast to float. -/
def new (box_min box_max : ℚ × ℚ × ℚ × ℚ) (config : SurfaceConfiguration) :
    ComputeParams where
  dt := 0
  width := GRID_DIMENSION_LENGTH
  height := GRID_DIMENSION_LENGTH
  depth := GRID_DIMENSION_LENGTH
  inject_sources_strength := 0
  box_min := box_min
  box_max := box_max
  viewport := ((config.width : ℚ), (config.height : ℚ))

/-- Model of `ComputeParams::update_dt`: stores the elapsed time (the seconds
value `dt.as_secs_f32()` computed at the call boundary). -/
def update_dt (p : ComputeParams) (dt : ℚ) : ComputeParams :=
  { p with dt := dt }

/-- Model of `ComputeParams::update_viewport`: overwrites the viewport with the
surface configuration's size cast to float. -/
def update_viewport (p : ComputeParams) (config : SurfaceConfiguration) :
    ComputeParams :=
  { p with viewport := ((config.width : ℚ), (config.height : ℚ)) }

/-- Model of `ComputeParams::set_inject_sources_strength`. -/
def set_inject_sources_strength (p : ComputeParams) (strength : ℚ) :
    ComputeParams :=
  { p with inject_sources_strength := strength }

end ComputeParams

/-! ## Theorems for the ping-pong and parameter-block claims -/

theorem swapIter_succ (n : ℕ) (p : PingPong) :
    swapIter (n + 1) p = (swapIter n p).swap := by
  unfold swapIter
  exact Function.iterate_succ_apply' PingPong.swap n p

theorem swapIter_texture_a (n : ℕ) (p : PingPong) :
    (swapIter n p).texture_a = p.texture_a := by
  induction n with
  | zero => rfl
  | succ k ih => rw [swapIter_succ]; exact ih

theorem swapIter_texture_b (n : ℕ) (p : PingPong) :
    (swapIter n p).texture_b = p.texture_b := by
  induction n with
  | zero => rfl
  | succ k ih => rw [swapIter_succ]; exact ih

theorem swapIter_new_a_to_b (a b : Texture) (n : ℕ) :
    (swapIter n (PingPong.new a b)).a_to_b = decide (n % 2 = 0) := by
  induction n with
  | zero => rfl
  | succ k ih =>
      rw [swapIter_succ]
      unfold PingPong.swap
      rw [show ({ swapIter k (PingPong.new a b) with
            a_to_b := !(swapIter k (PingPong.new a b)).a_to_b } : PingPong).a_to_b
          = !(swapIter k (PingPong.new a b)).a_to_b from rfl]
      rw [ih]
      rcases Nat.mod_two_eq_zero_or_one k with hk | hk
      · have h1 : (k + 1) % 2 = 1 := by omega
        simp [hk, h1]
      · have h1 : (k + 1) % 2 = 0 := by omega
        simp [hk, h1]

/-- C3: on a freshly constructed `PingPong(A, B)`, `get_read()` returns buffer
A's view after an even number of `swap()` calls and buffer B's view after an
odd number. -/
theorem pingPong_get_read_even_odd (a b : Texture) (n : ℕ) :
    (swapIter n (PingPong.new a b)).get_read =
      if n % 2 = 0 then a.view else b.view := by
  unfold PingPong.get_read
  rw [swapIter_new_a_to_b, swapIter_texture_a, swapIter_texture_b]
  by_cases h : n % 2 = 0 <;> simp [h, PingPong.new]

/-- C9: for every finite sequence of `swap()` calls on a `PingPong(A, B)`,
`get_sampler()` returns buffer A's sampler; in particular the sampler accessor
is invariant under `swap`. -/
theorem pingPong_get_sampler_const (a b : Texture) (n : ℕ) :
    (swapIter n (PingPong.new a b)).get_sampler = a.sampler ∧
      ∀ p : PingPong, p.swap.get_sampler = p.get_sampler := by
  constructor
  · unfold PingPong.get_sampler
    rw [swapIter_texture_a]
    rfl
  · intro p
    rfl

/-- C7: after `update_dt d`, reading the Parameter Block's `dt` field back
yields `d` exactly, and stays `d` under the other updates that may occur before
the next `update_dt` call. -/
theorem computeParams_dt_roundtrip (p : ComputeParams) (d s : ℚ)
    (cfg : SurfaceConfiguration) :
    (p.update_dt d).dt = d ∧
      ((p.update_dt d).set_inject_sources_strength s).dt = d ∧
      ((p.update_dt d).update_viewport cfg).dt = d := by
  exact ⟨rfl, rfl, rfl⟩

/-! ## compute_step.rs -/

/-- Model of `wgpu::BindingResource` as used by `ComputeStep::dispatch`: either
a texture view or a sampler, identified by handle. -/
inductive BindingResource where
  | textureView (view : ℕ)
  | samplerRes (handle : ℕ)
deriving DecidableEq

/-- Model of `wgpu::BindGroupEntry`: a binding index and a resource. -/
structure BindGroupEntry where
  binding : ℕ
  resource : BindingResource
deriving DecidableEq

namespace ComputeStep

/-- Model of the bind-group entry construction in `ComputeStep::dispatch`
(`compute_step.rs`): push the read texture at binding 0, the write texture at
binding 1, the i-th read-only texture at binding 2 + i (iterating in the given
order), and, if a sampler is provided, the sampler at binding
2 + textures_read_only.len().  Each `Vec::push` is modelled as appending a
singleton. -/
def dispatchEntries (texture_read texture_write : ℕ)
    (textures_read_only : List ℕ) (sampler : Option ℕ) : List BindGroupEntry :=
  let entries : List BindGroupEntry := []
  let entries := entries ++ [⟨0, .textureView texture_read⟩]
  let entries := entries ++ [⟨1, .textureView texture_write⟩]
  let entries := textures_read_only.enum.foldl
    (fun acc iv => acc ++ [⟨2 + iv.1, .textureView iv.2⟩]) entries
  match sampler with
  | some s => entries ++ [⟨2 + textures_read_only.length, .samplerRes s⟩]
  | none => entries

end ComputeStep

theorem foldl_push_eq_append_map {α β : Type} (g : α → β) :
    ∀ (l : List α) (init : List β),
      l.foldl (fun acc x => acc ++ [g x]) init = init ++ l.map g := by
  intro l
  induction l with
  | nil => intro init; simp
  | cons a t ih =>
      intro init
      rw [List.foldl_cons, ih, List.map_cons]
      simp

/-- C5: `ComputeStep::dispatch` assigns the read texture to binding 0, the
write texture to binding 1, the i-th auxiliary read-only texture to binding
2 + i in caller-supplied order, and the sampler, when provided, to binding
2 + k where k is the number of auxiliary textures (the last index). -/
theorem computeStep_dispatch_binding_assignment (r w : ℕ) (auxs : List ℕ)
    (smp : Option ℕ) :
    ComputeStep.dispatchEntries r w auxs smp =
      ⟨0, .textureView r⟩ :: ⟨1, .textureView w⟩ ::
        ((auxs.enum.map fun iv => (⟨2 + iv.1, .textureView iv.2⟩ : BindGroupEntry)) ++
          (smp.toList.map fun s => (⟨2 + auxs.length, .samplerRes s⟩ : BindGroupEntry))) := by
  unfold ComputeStep.dispatchEntries
  cases smp with
  | none =>
      simp [foldl_push_eq_append_map]
  | some s =>
      simp [foldl_push_eq_append_map]

/-! ## state.rs — the frame orchestrator

The `State` model keeps the fields of `state.rs`'s `State` that the verified
claims observe.  GPU resources (pipelines, bind groups, the command encoder,
the camera) are abstracted away; the contents of the parameter uniform buffer
on the device are tracked in `compute_params_buffer` (updated by each
`queue.write_buffer` of the params buffer, which fully overwrites it), and the
commands encoded during `render` are returned as an explicit log. -/

/-- Model of `winit::keyboard::KeyCode` restricted to the variants `handle_key`
distinguishes: Escape, Space, and any other key (handled by the camera
controller, which is outside the modelled core). -/
inductive KeyCode where
  | escape
  | space
  | other
deriving DecidableEq

/-- Model of `winit::event::ElementState`. -/
inductive ElementState where
  | pressed
  | released
deriving DecidableEq

/-- Model of `ElementState::is_pressed`. -/
def ElementState.is_pressed : ElementState → Bool
  | .pressed => true
  | .released => false

/-- Commands recorded while encoding one frame in `State::render`.  A dispatch
command carries the parameter-block contents visible to it (the device-side
uniform buffer at encode time, per the spec's single-stream ordering model),
the ping-pong direction used to pick its bind group, and its workgroup-count
triple. -/
inductive Cmd where
  | addInputDispatch (useA : Bool) (workgroups : ℕ × ℕ × ℕ)
  | simulateDispatch (params : ComputeParams) (aToB : Bool)
      (workgroups : ℕ × ℕ × ℕ)
  | pushParams (params : ComputeParams)
  | renderPass
deriving DecidableEq

/-- Model of `State` from `state.rs`, restricted to the fields the claims
observe.  `depth_texture` and `projection` record the sizes they were created
or last resized with. -/
structure State where
  config : SurfaceConfiguration
  is_surface_configured : Bool
  depth_texture : ℕ × ℕ
  projection : ℕ × ℕ
  compute_params : ComputeParams
  compute_params_buffer : ComputeParams
  use_a_to_b : Bool
  pending_input : Bool
deriving DecidableEq

namespace State

/-- Model of `State::new` for a window of the given inner size: the surface
starts unconfigured, the parameter block is `ComputeParams::new` with
`box_min = 0` and `box_max = GRID_DIMENSION_LENGTH * GRID_VOXEL_SIDE_LENGTH`
in each coordinate, the params buffer is initialised with those contents,
`use_a_to_b = true` and `pending_input = false`.  The depth texture is created
from the config (clamping each dimension to at least 1, as
`Texture::create_depth_texture` does). -/
def new (width height : ℕ) : State :=
  let config : SurfaceConfiguration := { width := width, height := height }
  let extent : ℚ := (GRID_DIMENSION_LENGTH : ℚ) * GRID_VOXEL_SIDE_LENGTH
  let params := ComputeParams.new (0, 0, 0, 0) (extent, extent, extent, 0) config
  { config := config
    is_surface_configured := false
    depth_texture := (max width 1, max height 1)
    projection := (width, height)
    compute_params := params
    compute_params_buffer := params
    use_a_to_b := true
    pending_input := false }

/-- Model of `State::resize`: when both dimensions are positive, update the
surface configuration, reconfigure the surface, resize the projection,
recreate the depth texture, update the parameter block's viewport and mark the
surface configured; otherwise do nothing. -/
def resize (s : State) (width height : ℕ) : State :=
  if 0 < width ∧ 0 < height then
    let config : SurfaceConfiguration := { width := width, height := height }
    { s with
      config := config
      projection := (width, height)
      depth_texture := (max config.width 1, max config.height 1)
      compute_params := s.compute_params.update_viewport config
      is_surface_configured := true }
  else s

/-- Model of `State::update`: sets the parameter block's dt to the elapsed
time and pushes the whole block to the device buffer (the camera update is
outside the modelled core). -/
def update (s : State) (dt : ℚ) : State :=
  let params := s.compute_params.update_dt dt
  { s with compute_params := params, compute_params_buffer := params }

/-- Model of `State::handle_key`.  The returned flag records whether
`event_loop.exit()` was requested (Escape).  On Space pressed, the injection
strength is set to 1.0 and the whole parameter block is pushed to the device
buffer; other keys go to the camera controller, which does not touch the
modelled fields.  Note the source never sets `pending_input` here. -/
def handle_key (s : State) (code : KeyCode) (key_state : ElementState) :
    State × Bool :=
  if code = KeyCode.escape ∧ key_state.is_pressed = true then
    (s, true)
  else if code = KeyCode.space ∧ key_state.is_pressed = true then
    let params := s.compute_params.set_inject_sources_strength 1
    ({ s with compute_params := params, compute_params_buffer := params }, false)
  else
    (s, false)

/-- Workgroup count per axis used by both dispatches in `State::render`:
`GRID_DIMENSION_LENGTH / 4` (the compute shader declares 4 threads per
dimension). -/
def num_dispatches_per_dimension : ℕ := GRID_DIMENSION_LENGTH / 4

/-- Model of `State::render`, returning the new state and the log of commands
encoded for this frame, in encoding order.  If the surface is not configured
the frame is skipped.  Otherwise: if `pending_input`, encode the add-input
dispatch over the current buffers (bind group chosen by `use_a_to_b`) and
clear `pending_input`; encode the simulation dispatch (which reads the params
uniform buffer) and flip `use_a_to_b`; if the injection strength is positive,
reset it to 0 and push the parameter block; finally encode the render pass. -/
def render (s : State) : State × List Cmd :=
  if s.is_surface_configured = false then (s, [])
  else
    let nd := num_dispatches_per_dimension
    let step1 : State × List Cmd :=
      if s.pending_input then
        ({ s with pending_input := false },
          [Cmd.addInputDispatch s.use_a_to_b (nd, nd, nd)])
      else (s, [])
    let s1 := step1.1
    let simCmds := [Cmd.simulateDispatch s1.compute_params_buffer s1.use_a_to_b
      (nd, nd, nd)]
    let s2 := { s1 with use_a_to_b := !s1.use_a_to_b }
    let step3 : State × List Cmd :=
      if 0 < s2.compute_params.inject_sources_strength then
        let params := s2.compute_params.set_inject_sources_strength 0
        ({ s2 with compute_params := params, compute_params_buffer := params },
          [Cmd.pushParams params])
      else (s2, [])
    (step3.1, step1.2 ++ simCmds ++ step3.2 ++ [Cmd.renderPass])

/-- One frame of the surrounding event loop: `update` with the elapsed time,
then `render`, keeping the resulting state. -/
def frame (s : State) (dt : ℚ) : State :=
  ((s.update dt).render).1

/-- The command log encoded by one frame (update then render). -/
def frameLog (s : State) (dt : ℚ) : List Cmd :=
  ((s.update dt).render).2

/-- Runs a sequence of frames with the given elapsed times. -/
def runFrames (s : State) (ds : List ℚ) : State :=
  ds.foldl frame s

end State

/-- Injection strengths carried by the simulation dispatches of a command
log, in order. -/
def simStrengths (cmds : List Cmd) : List ℚ :=
  cmds.filterMap fun c =>
    match c with
    | .simulateDispatch p _ _ => some p.inject_sources_strength
    | _ => none

/-- Recognizes the add-input (injection) dispatch command. -/
def isAddInput : Cmd → Bool
  | .addInputDispatch _ _ => true
  | _ => false

/-- Checks that a command, if it is a dispatch, uses the given workgroup-count
triple on every axis. -/
def dispatchUses (wg : ℕ × ℕ × ℕ) : Cmd → Bool
  | .addInputDispatch _ w => decide (w = wg)
  | .simulateDispatch _ _ w => decide (w = wg)
  | _ => true

/-! ## Theorems about resize -/

/-- C10: calling resize with a zero width or height is a complete no-op on the
state (surface configuration, projection, depth texture, Parameter Block and
the is_surface_configured flag all unchanged). -/
theorem resize_zero_noop (s : State) (w h : ℕ) (h0 : w = 0 ∨ h = 0) :
    s.resize w h = s := by
  unfold State.resize
  rw [if_neg]
  rcases h0 with h0 | h0 <;> simp [h0]

theorem resize_zero_noop_witness :
    ((0 : ℕ) = 0 ∨ (600 : ℕ) = 0) ∧ (State.new 800 600).resize 0 600 = State.new 800 600 :=
  ⟨Or.inl rfl, resize_zero_noop (State.new 800 600) 0 600 (Or.inl rfl)⟩

/-- C6: resize with positive width and height sets the Parameter Block's
viewport to exactly (width, height) and leaves the block's grid extents
(width, height, depth) unchanged (the grid resolution constant is a
compile-time constant and cannot change). -/
theorem resize_updates_viewport (s : State) (w h : ℕ) (hw : 0 < w) (hh : 0 < h) :
    (s.resize w h).compute_params.viewport = ((w : ℚ), (h : ℚ)) ∧
      (s.resize w h).compute_params.width = s.compute_params.width ∧
      (s.resize w h).compute_params.height = s.compute_params.height ∧
      (s.resize w h).compute_params.depth = s.compute_params.depth := by
  unfold State.resize
  rw [if_pos ⟨hw, hh⟩]
  simp [ComputeParams.update_viewport]

theorem resize_updates_viewport_witness :
    (0 < 1024 ∧ 0 < 768) ∧
      (((State.new 800 600).resize 1024 768).compute_params.viewport
          = ((1024 : ℚ), (768 : ℚ)) ∧
        ((State.new 800 600).resize 1024 768).compute_params.width
          = (State.new 800 600).compute_params.width ∧
        ((State.new 800 600).resize 1024 768).compute_params.height
          = (State.new 800 600).compute_params.height ∧
        ((State.new 800 600).resize 1024 768).compute_params.depth
          = (State.new 800 600).compute_params.depth) :=
  ⟨⟨by decide, by decide⟩,
    resize_updates_viewport (State.new 800 600) 1024 768 (by decide) (by decide)⟩

/-! ## Theorems about the render-step dispatches -/

/-- C4: with grid resolution 64 and per-axis thread-group size 4, every
dispatch encoded by the render step (the simulation dispatch and, when it
runs, the add-input/injection dispatch) uses workgroup counts
(64 / 4, 64 / 4, 64 / 4) = (16, 16, 16), and 16 * 4 = 64 exactly. -/
theorem render_dispatch_workgroups (s : State) :
    State.num_dispatches_per_dimension = 16 ∧
      State.num_dispatches_per_dimension * 4 = GRID_DIMENSION_LENGTH ∧
      ((s.render).2.all (dispatchUses (16, 16, 16))) = true := by
  refine ⟨rfl, rfl, ?_⟩
  unfold State.render
  by_cases h1 : s.is_surface_configured = false
  · simp [h1]
  · by_cases h2 : s.pending_input <;>
      by_cases h3 : 0 < s.compute_params.inject_sources_strength <;>
      simp [h1, h2, h3, dispatchUses, State.num_dispatches_per_dimension,
        GRID_DIMENSION_LENGTH]

/-! ## Injection handling -/

/-- C2 divergence: on a Space key press the handler sets the injection
strength to 1.0 but does not set pending_input, so starting from any state
with pending_input = false (as at construction) the next frame never encodes
the add-input (injection) dispatch. -/
theorem handle_key_space_no_injection_dispatch (s : State) (d : ℚ)
    (h : s.pending_input = false) :
    ((s.handle_key KeyCode.space ElementState.pressed).1).compute_params.inject_sources_strength = 1 ∧
      ((s.handle_key KeyCode.space ElementState.pressed).1).pending_input = false ∧
      ((((s.handle_key KeyCode.space ElementState.pressed).1).frameLog d).all
          fun c => !(isAddInput c)) = true := by
  have hkey : (s.handle_key KeyCode.space ElementState.pressed).1 =
      { s with
        compute_params := s.compute_params.set_inject_sources_strength 1
        compute_params_buffer := s.compute_params.set_inject_sources_strength 1 } := by
    unfold State.handle_key
    simp [ElementState.is_pressed]
  refine ⟨by rw [hkey]; rfl, by rw [hkey]; exact h, ?_⟩
  rw [hkey]
  unfold State.frameLog State.render
  by_cases h1 : s.is_surface_configured = false
  · simp [State.update, h1]
  · simp [State.update, ComputeParams.update_dt,
      ComputeParams.set_inject_sources_strength, h, h1, isAddInput]

theorem handle_key_space_no_injection_dispatch_witness :
    (State.new 800 600).pending_input = false ∧
      (((State.new 800 600).handle_key KeyCode.space ElementState.pressed).1).compute_params.inject_sources_strength = 1 ∧
        (((State.new 800 600).handle_key KeyCode.space ElementState.pressed).1).pending_input = false ∧
        (((((State.new 800 600).handle_key KeyCode.space ElementState.pressed).1).frameLog 1).all
            fun c => !(isAddInput c)) = true :=
  ⟨rfl, handle_key_space_no_injection_dispatch (State.new 800 600) 1 rfl⟩

theorem render_preserves_surface (s : State) :
    ((s.render).1).is_surface_configured = s.is_surface_configured := by
  unfold State.render
  by_cases h1 : s.is_surface_configured = false
  · simp [h1]
  · by_cases h2 : s.pending_input <;>
      by_cases h3 : 0 < s.compute_params.inject_sources_strength <;>
      simp [h1, h2, h3]

theorem render_strength_zero (s : State)
    (h0 : s.compute_params.inject_sources_strength = 0) :
    ((s.render).1).compute_params.inject_sources_strength = 0 := by
  unfold State.render
  by_cases h1 : s.is_surface_configured = false
  · simp [h1, h0]
  · by_cases h2 : s.pending_input <;>
      simp [h1, h2, h0]

theorem frame_inv (s : State) (d : ℚ) (hcfg : s.is_surface_configured = true)
    (h0 : s.compute_params.inject_sources_strength = 0) :
    (s.frame d).is_surface_configured = true ∧
      (s.frame d).compute_params.inject_sources_strength = 0 := by
  unfold State.frame
  constructor
  · rw [render_preserves_surface]
    exact hcfg
  · exact render_strength_zero _ (by simpa [State.update, ComputeParams.update_dt] using h0)

theorem runFrames_inv (ds : List ℚ) :
    ∀ s : State, s.is_surface_configured = true →
      s.compute_params.inject_sources_strength = 0 →
      (s.runFrames ds).is_surface_configured = true ∧
        (s.runFrames ds).compute_params.inject_sources_strength = 0 := by
  induction ds with
  | nil => intro s hcfg h0; exact ⟨hcfg, h0⟩
  | cons d t ih =>
      intro s hcfg h0
      have h := frame_inv s d hcfg h0
      exact ih (s.frame d) h.1 h.2

theorem frameLog_strengths (s : State) (d : ℚ)
    (hcfg : s.is_surface_configured = true) :
    simStrengths (s.frameLog d) = [s.compute_params.inject_sources_strength] := by
  unfold State.frameLog State.render
  have h1 : ¬(s.is_surface_configured = false) := by simp [hcfg]
  by_cases h2 : s.pending_input <;>
    by_cases h3 : 0 < s.compute_params.inject_sources_strength <;>
    simp [State.update, ComputeParams.update_dt, h1, h2, h3, simStrengths]

/-- C1: whenever the injection strength is nonzero as a frame's render step
runs, the orchestrator resets it to exactly 0 and re-pushes the Parameter
Block immediately after encoding that frame's advection dispatch; hence after
an injection event (Space press) before frame K, the advection dispatch of
frame K sees strength exactly 1 and the advection dispatch of every later
frame sees strength exactly 0, absent further injection events. -/
theorem injection_one_shot (s : State) (d dK : ℚ) (ds : List ℚ)
    (hcfg : s.is_surface_configured = true) :
    (0 < s.compute_params.inject_sources_strength →
      ((s.render).1).compute_params.inject_sources_strength = 0 ∧
        ((s.render).1).compute_params_buffer.inject_sources_strength = 0 ∧
        ∃ pre, (s.render).2 = pre ++
          [Cmd.simulateDispatch s.compute_params_buffer s.use_a_to_b
              (State.num_dispatches_per_dimension,
               State.num_dispatches_per_dimension,
               State.num_dispatches_per_dimension),
            Cmd.pushParams (s.compute_params.set_inject_sources_strength 0),
            Cmd.renderPass]) ∧
      simStrengths (((s.handle_key KeyCode.space ElementState.pressed).1).frameLog dK)
        = [1] ∧
      simStrengths
          (((((s.handle_key KeyCode.space ElementState.pressed).1).frame dK).runFrames
              ds).frameLog d)
        = [0] := by
  have h1 : ¬(s.is_surface_configured = false) := by simp [hcfg]
  have hkey : (s.handle_key KeyCode.space ElementState.pressed).1 =
      { s with
        compute_params := s.compute_params.set_inject_sources_strength 1
        compute_params_buffer := s.compute_params.set_inject_sources_strength 1 } := by
    unfold State.handle_key
    simp [ElementState.is_pressed]
  refine ⟨?_, ?_, ?_⟩
  · intro hpos
    unfold State.render
    by_cases h2 : s.pending_input
    · simp [h1, h2, hpos, ComputeParams.set_inject_sources_strength]
      exact ⟨[Cmd.addInputDispatch s.use_a_to_b
        (State.num_dispatches_per_dimension, State.num_dispatches_per_dimension,
          State.num_dispatches_per_dimension)], rfl⟩
    · simp [h1, h2, hpos, ComputeParams.set_inject_sources_strength]
  · rw [hkey]
    rw [frameLog_strengths _ _ (by simpa using hcfg)]
    rfl
  · have hK : (((s.handle_key KeyCode.space ElementState.pressed).1).frame dK).is_surface_configured = true ∧
        (((s.handle_key KeyCode.space ElementState.pressed).1).frame dK).compute_params.inject_sources_strength = 0 := by
      rw [hkey]
      unfold State.frame
      constructor
      · rw [render_preserves_surface]
        simpa using hcfg
      · unfold State.render
        by_cases h2 : s.pending_input <;>
          simp [State.update, ComputeParams.update_dt,
            ComputeParams.set_inject_sources_strength, h1, h2]
    have hrun := runFrames_inv ds _ hK.1 hK.2
    rw [frameLog_strengths _ _ hrun.1, hrun.2]

theorem injection_one_shot_witness :
    ((State.new 800 600).resize 800 600).is_surface_configured = true ∧
      ((0 < ((State.new 800 600).resize 800 600).compute_params.inject_sources_strength →
        ((((State.new 800 600).resize 800 600).render).1).compute_params.inject_sources_strength = 0 ∧
          ((((State.new 800 600).resize 800 600).render).1).compute_params_buffer.inject_sources_strength = 0 ∧
          ∃ pre, (((State.new 800 600).resize 800 600).render).2 = pre ++
            [Cmd.simulateDispatch ((State.new 800 600).resize 800 600).compute_params_buffer
                ((State.new 800 600).resize 800 600).use_a_to_b
                (State.num_dispatches_per_dimension,
                 State.num_dispatches_per_dimension,
                 State.num_dispatches_per_dimension),
              Cmd.pushParams (((State.new 800 600).resize 800 600).compute_params.set_inject_sources_strength 0),
              Cmd.renderPass]) ∧
        simStrengths (((((State.new 800 600).resize 800 600).handle_key KeyCode.space
            ElementState.pressed).1).frameLog 2) = [1] ∧
        simStrengths ((((((((State.new 800 600).resize 800 600).handle_key KeyCode.space
            ElementState.pressed).1).frame 2).runFrames [3]).frameLog 1)) = [0]) :=
  ⟨rfl, injection_one_shot ((State.new 800 600).resize 800 600) 1 2 [3] rfl⟩

/-! ## texture.rs — the procedural tornado velocity initializer

The host-side loop of `Texture::write_velocity_3d_rgba16f_tornado` is modelled
over the reals.  The rgba16f encoding is dropped: the claims only inspect the
mathematical values written (0.0 and the tangent formula), and the zero-filled
initial byte buffer decodes to the zero vector.  The write of cell (x, y, z)
into the flat buffer at the packed index is modelled as a `Function.update` of
a flat map, folded in the source's loop order (z outermost, then y, then x). -/

/-- Model of the `to_unit` closure in `write_velocity_3d_rgba16f_tornado`:
maps integer index i in 0..n to the [-1, 1] coordinate of the voxel center,
`((i as f32 + 0.5) / n as f32) * 2.0 - 1.0`. -/
noncomputable def to_unit (i n : ℕ) : ℝ :=
  ((i : ℝ) + 0.5) / (n : ℝ) * 2 - 1

/-- Model of the per-cell velocity computed by the tornado initializer: with
px, pz the unit coordinates of cell (x, ·, z) and r2 = px² + pz², cells with
r2 < 1e-6 (on the vertical axis) get the zero vector, all others the tangent
(pz, 0, -px) scaled by 1 / sqrt(r2).  The value does not depend on y. -/
noncomputable def tornado_velocity (x z : ℕ) : ℝ × ℝ × ℝ :=
  let px := to_unit x GRID_DIMENSION_LENGTH
  let pz := to_unit z GRID_DIMENSION_LENGTH
  let r2 := px * px + pz * pz
  if r2 < 1e-6 then (0, 0, 0)
  else
    let inv_r := 1 / Real.sqrt r2
    (pz * inv_r, 0, -px * inv_r)

/-- Model of the packed voxel index used by the initializer's write:
`x + width * (y + height * z)` with width = height = GRID_DIMENSION_LENGTH. -/
def tornado_index (x y z : ℕ) : ℕ :=
  x + GRID_DIMENSION_LENGTH * (y + GRID_DIMENSION_LENGTH * z)

/-- Model of the full triple write loop of the tornado initializer: starting
from the zero-filled buffer, for z, y, x in 0..GRID_DIMENSION_LENGTH write the
cell's velocity at its packed index. -/
noncomputable def tornado_data : ℕ → ℝ × ℝ × ℝ :=
  (List.range GRID_DIMENSION_LENGTH).foldl (fun f z =>
    (List.range GRID_DIMENSION_LENGTH).foldl (fun f y =>
      (List.range GRID_DIMENSION_LENGTH).foldl (fun f x =>
        Function.update f (tornado_index x y z) (tornado_velocity x z)) f) f)
    (fun _ => (0, 0, 0))

theorem foldl_apply_preserved {α β : Type} (l : List α)
    (step : (ℕ → β) → α → ℕ → β) (f : ℕ → β) (j : ℕ)
    (hstep : ∀ g : ℕ → β, ∀ a ∈ l, step g a j = g j) :
    l.foldl step f j = f j := by
  induction l generalizing f with
  | nil => rfl
  | cons a t ih =>
      rw [List.foldl_cons,
        ih (step f a) (fun g a' ha' => hstep g a' (List.mem_cons_of_mem _ ha'))]
      exact hstep f a (List.mem_cons_self _ _)

theorem foldl_apply_hit {α β : Type} (l : List α) (hnd : l.Nodup)
    (step : (ℕ → β) → α → ℕ → β) (j : ℕ) (a0 : α) (c : β) (ha : a0 ∈ l)
    (hhit : ∀ g : ℕ → β, step g a0 j = c)
    (hmiss : ∀ g : ℕ → β, ∀ a ∈ l, a ≠ a0 → step g a j = g j) :
    ∀ f : ℕ → β, l.foldl step f j = c := by
  induction l with
  | nil => cases ha
  | cons a t ih =>
      intro f
      rw [List.foldl_cons]
      rcases List.mem_cons.mp ha with hA | hA
      · subst hA
        have ha0t : a0 ∉ t := (List.nodup_cons.mp hnd).1
        rw [foldl_apply_preserved t step (step f a0) j
          (fun g a' ha' =>
            hmiss g a' (List.mem_cons_of_mem _ ha')
              (fun he => ha0t (he ▸ ha')))]
        exact hhit f
      · have haa0 : a ≠ a0 := fun he => (List.nodup_cons.mp hnd).1 (he ▸ hA)
        rw [show step f a = step f a from rfl]
        exact ih (List.nodup_cons.mp hnd).2 hA
          (fun g a' ha' h' => hmiss g a' (List.mem_cons_of_mem _ ha') h')
          (step f a)

theorem tornado_index_inj {x y z x' y' z' : ℕ}
    (hx : x < 64) (hy : y < 64) (hz : z < 64)
    (hx' : x' < 64) (hy' : y' < 64) (hz' : z' < 64)
    (h : tornado_index x y z = tornado_index x' y' z') :
    x = x' ∧ y = y' ∧ z = z' := by
  unfold tornado_index GRID_DIMENSION_LENGTH at h
  omega

theorem tornado_data_apply (x y z : ℕ) (hx : x < 64) (hy : y < 64)
    (hz : z < 64) :
    tornado_data (tornado_index x y z) = tornado_velocity x z := by
  unfold tornado_data
  have h64 : GRID_DIMENSION_LENGTH = 64 := rfl
  rw [h64]
  refine foldl_apply_hit (List.range 64) (List.nodup_range 64) _
    (tornado_index x y z) z (tornado_velocity x z) (List.mem_range.mpr hz)
    ?_ ?_ _
  · intro g
    refine foldl_apply_hit (List.range 64) (List.nodup_range 64) _
      (tornado_index x y z) y (tornado_velocity x z) (List.mem_range.mpr hy)
      ?_ ?_ g
    · intro g'
      refine foldl_apply_hit (List.range 64) (List.nodup_range 64) _
        (tornado_index x y z) x (tornado_velocity x z) (List.mem_range.mpr hx)
        ?_ ?_ g'
      · intro g''
        exact Function.update_same _ _ _
      · intro g'' x' hx'mem hx'ne
        refine Function.update_noteq ?_ _ _
        intro he
        exact hx'ne (tornado_index_inj hx hy hz (List.mem_range.mp hx'mem) hy hz he).1.symm
    · intro g' y' hy'mem hy'ne
      refine foldl_apply_preserved (List.range 64) _ g' _ ?_
      intro g'' x' hx'mem
      refine Function.update_noteq ?_ _ _
      intro he
      exact hy'ne (tornado_index_inj hx hy hz (List.mem_range.mp hx'mem)
        (List.mem_range.mp hy'mem) hz he).2.1.symm
  · intro g z' hz'mem hz'ne
    refine foldl_apply_preserved (List.range 64) _ g _ ?_
    intro g' y' hy'mem
    refine foldl_apply_preserved (List.range 64) _ g' _ ?_
    intro g'' x' hx'mem
    refine Function.update_noteq ?_ _ _
    intro he
    exact hz'ne (tornado_index_inj hx hy hz (List.mem_range.mp hx'mem)
      (List.mem_range.mp hy'mem) (List.mem_range.mp hz'mem) he).2.2.symm

/-- C8: the tornado initializer stores, for every grid cell (x, y, z), its
velocity at the packed index x + width * (y + height * z); the y-component of
that velocity is always zero; cells whose squared horizontal distance from the
grid's vertical axis is below 1e-6 get the zero vector, and every other cell
gets the normalized horizontal tangent (pz, 0, -px) / sqrt(px² + pz²) of the
rotation about the Y axis. -/
theorem tornado_initializer_spec (x y z : Fin 64) :
    tornado_data (tornado_index x y z) = tornado_velocity x z ∧
      (tornado_velocity x z).2.1 = 0 ∧
      tornado_velocity x z =
        (if to_unit x GRID_DIMENSION_LENGTH * to_unit x GRID_DIMENSION_LENGTH
              + to_unit z GRID_DIMENSION_LENGTH * to_unit z GRID_DIMENSION_LENGTH
              < 1e-6
          then (0, 0, 0)
          else
            (to_unit z GRID_DIMENSION_LENGTH /
                Real.sqrt (to_unit x GRID_DIMENSION_LENGTH * to_unit x GRID_DIMENSION_LENGTH
                  + to_unit z GRID_DIMENSION_LENGTH * to_unit z GRID_DIMENSION_LENGTH),
              0,
              -to_unit x GRID_DIMENSION_LENGTH /
                Real.sqrt (to_unit x GRID_DIMENSION_LENGTH * to_unit x GRID_DIMENSION_LENGTH
                  + to_unit z GRID_DIMENSION_LENGTH * to_unit z GRID_DIMENSION_LENGTH))) := by
  refine ⟨tornado_data_apply x y z x.isLt y.isLt z.isLt, ?_, ?_⟩
  · unfold tornado_velocity
    dsimp only
    split <;> rfl
  · unfold tornado_velocity
    dsimp only
    split
    · rfl
    · rw [mul_one_div, mul_one_div, neg_div]

end FireSim
